import Mathlib

/-!
Verification of the DocRelief AI generation-and-polling workflow.

The definitions below are a shallow embedding of the frontend source:
`src/frontend/src/services/api.js`, `src/frontend/src/pages/PreviewPage.jsx`
(both the PreviewPage component and the LoadingPage component),
and `src/frontend/src/components/PublicRepoTab.jsx`.
Asynchronous JavaScript is modelled by explicit state passing: a network
round trip becomes a value of `Except String Job` supplied as an argument,
the sequence of status fetches of the polling loop becomes a function
`Nat → Job` giving the record returned by the k-th fetch, and side effects
become explicit event lists.
-/

namespace DocRelief

/-- A job record as returned by the backend `GET /api/readme/:id` endpoint and
consumed by the frontend: `id`, `status`, `readme_content` (nullable),
`repo_url` (nullable). -/
structure Job where
  id : String
  status : String
  readme_content : Option String
  repo_url : Option String
deriving DecidableEq, Repr

/-- JavaScript `s || ''` applied to a nullable string field
(`readmeData.readme_content || ''` in PreviewPage.jsx): `null` and the empty
string are falsy and give `''`; any other string is returned unchanged. -/
def orEmpty : Option String → String
  | some s => s
  | none => ""

/-- JavaScript `data.readme_content || 'README generation failed'` in
`pollReadmeStatus` (api.js line 52): the error message thrown for a
`failed` record. `null` and `''` are falsy and give the default text. -/
def failMsg (j : Job) : String :=
  match j.readme_content with
  | some s => if s = "" then "README generation failed" else s
  | none => "README generation failed"

/-- Outcome of a `pollReadmeStatus` run: the promise resolves with the full
record, or rejects with the generation-failure message, or rejects with the
timeout message. -/
inductive PollOutcome where
  | completed (j : Job)
  | genFailed (msg : String)
  | timeout
deriving DecidableEq, Repr

/-- Body of the `for (let attempt = 0; attempt < maxAttempts; attempt++)` loop
of `pollReadmeStatus` (api.js lines 45-57), with `fetch k` the record returned
by the k-th `getReadme` call. Returns the outcome together with the number of
fetches performed and the accumulated `setTimeout` delay in milliseconds.
Note the source awaits the `intervalMs` delay after every non-terminal fetch,
including the one of the last iteration, before the loop condition fails and
the timeout error is thrown. -/
def pollGo (fetch : Nat → Job) (intervalMs : Nat) : Nat → Nat → PollOutcome × Nat × Nat
  | _, 0 => (.timeout, 0, 0)
  | k, n + 1 =>
    let data := fetch k
    if data.status = "completed" then
      (.completed data, 1, 0)
    else if data.status = "failed" then
      (.genFailed (failMsg data), 1, 0)
    else
      let r := pollGo fetch intervalMs (k + 1) n
      (r.1, r.2.1 + 1, r.2.2 + intervalMs)

/-- The `pollReadmeStatus(readmeId, maxAttempts, intervalMs)` function of
api.js, as a function of the fetched record stream. -/
def pollReadmeStatus (fetch : Nat → Job) (maxAttempts intervalMs : Nat) :
    PollOutcome × Nat × Nat :=
  pollGo fetch intervalMs 0 maxAttempts

/-- Default `maxAttempts` of `pollReadmeStatus` in api.js. -/
def defaultMaxAttempts : Nat := 15

/-- Default `intervalMs` of `pollReadmeStatus` in api.js. -/
def defaultIntervalMs : Nat := 2000

/-- Outcome of a run. -/
def pollOutcome (fetch : Nat → Job) (n d : Nat) : PollOutcome :=
  (pollReadmeStatus fetch n d).1

/-- Number of `getReadme` fetches a run performs. -/
def pollFetches (fetch : Nat → Job) (n d : Nat) : Nat :=
  (pollReadmeStatus fetch n d).2.1

/-- Total inter-attempt delay a run accumulates, in milliseconds. -/
def pollDelay (fetch : Nat → Job) (n d : Nat) : Nat :=
  (pollReadmeStatus fetch n d).2.2

/-- A status is terminal when it is `completed` or `failed`. -/
def isTerminalStatus (s : String) : Bool :=
  s = "completed" || s = "failed"

/-- A pending record that never becomes terminal. -/
def pendingJob : Job :=
  { id := "abc123", status := "pending", readme_content := none, repo_url := none }

section PollerLemmas

/-- Helper: on a stream with no terminal record among the next `n` fetches,
the loop starting at `k` with budget `n` times out after `n` fetches and
`n * d` of delay. -/
theorem pollGo_nonterminal (fetch : Nat → Job) (d : Nat) :
    ∀ n k, (∀ i, i < n → isTerminalStatus (fetch (k + i)).status = false) →
      pollGo fetch d k n = (.timeout, n, n * d) := by
  intro n
  induction n with
  | zero => intro k _; simp [pollGo]
  | succ m ih =>
    intro k h
    have h0 := h 0 (Nat.succ_pos m)
    simp [isTerminalStatus] at h0
    have hrec := ih (k + 1) (fun i hi => by
      have := h (i + 1) (Nat.succ_lt_succ hi)
      simpa [Nat.add_assoc, Nat.add_comm 1 i] using this)
    simp [pollGo, h0.1, h0.2, hrec, Nat.succ_mul, Nat.add_comm]

/-- Result of the terminal-status check in the loop body: a `completed`
record resolves with the full record, a `failed` one rejects with the
message built by `failMsg`. -/
def terminalResult (j : Job) : PollOutcome :=
  if j.status = "completed" then .completed j else .genFailed (failMsg j)

/-- Index (relative to `start`) of the first fetch with a terminal status
among the next `n` fetches, if any. -/
def firstTerminalFrom (fetch : Nat → Job) : Nat → Nat → Option Nat
  | _, 0 => none
  | start, n + 1 =>
    if isTerminalStatus (fetch start).status then some 0
    else (firstTerminalFrom fetch (start + 1) n).map (· + 1)

/-- Index of the first fetch with a terminal status among the first `n`
fetches, if any. -/
def firstTerminalIdx (fetch : Nat → Job) (n : Nat) : Option Nat :=
  firstTerminalFrom fetch 0 n

/-- Helper: the loop is fully characterised by the first terminal index. -/
theorem pollGo_characterisation (fetch : Nat → Job) (d : Nat) :
    ∀ n start, pollGo fetch d start n =
      match firstTerminalFrom fetch start n with
      | some k => (terminalResult (fetch (start + k)), k + 1, k * d)
      | none => (.timeout, n, n * d) := by
  intro n
  induction n with
  | zero => intro start; simp [pollGo, firstTerminalFrom]
  | succ m ih =>
    intro start
    by_cases hterm : isTerminalStatus (fetch start).status = true
    · have hsome : firstTerminalFrom fetch start (m + 1) = some 0 := by
        simp [firstTerminalFrom, hterm]
      have hcases : (fetch start).status = "completed" ∨ (fetch start).status = "failed" := by
        simpa [isTerminalStatus] using hterm
      rcases hcases with hc | hf
      · simp [pollGo, hc, hsome, terminalResult]
      · have hnc : (fetch start).status ≠ "completed" := by simp [hf]
        simp [pollGo, hf, hnc, hsome, terminalResult]
    · have hterm' : isTerminalStatus (fetch start).status = false :=
        Bool.eq_false_iff.mpr hterm
      have hnc : ¬ (fetch start).status = "completed" := by
        intro hc; simp [isTerminalStatus, hc] at hterm'
      have hnf : ¬ (fetch start).status = "failed" := by
        intro hf; simp [isTerminalStatus, hf] at hterm'
      have hrec := ih (start + 1)
      simp only [pollGo, hnc, hnf, if_false, hrec, firstTerminalFrom, hterm',
        Bool.false_eq_true, if_neg]
      cases hft : firstTerminalFrom fetch (start + 1) m with
      | none => simp [Nat.succ_mul, Nat.add_comm]
      | some k =>
        simp [Nat.add_assoc, Nat.add_comm 1 k, Nat.succ_mul, Nat.add_comm (k * d) d]

end PollerLemmas

/-- C1. The claim states that a job that never reaches a terminal state
causes exactly `N` fetches and a `Timeout` failure after `(N - 1) * D` of
accumulated delay, with no delay after the final fetch. On the code the
delay is awaited after every non-terminal fetch, the final one included:
with `N = 2`, `D = 2000` and an always-pending record the run accumulates
`2 * 2000 = 4000` of delay, not `(2 - 1) * 2000 = 2000`. -/
theorem C1_delay_counterexample :
    pollDelay (fun _ => pendingJob) 2 2000 = 2 * 2000 ∧
      pollDelay (fun _ => pendingJob) 2 2000 ≠ (2 - 1) * 2000 := by
  constructor
  · rfl
  · intro h
    simp [pollDelay, pollReadmeStatus, pollGo, pendingJob, failMsg] at h

/-- C1 (amended). For every attempt ceiling `N` and delay `D`, a job whose
status is never terminal causes exactly `N` fetches and a `Timeout` failure,
and accumulates exactly `N * D` of inter-attempt delay: a delay of `D` is
awaited after every non-terminal fetch, including the final one, before the
`Timeout` error is thrown. -/
theorem C1_never_terminal_timeout (fetch : Nat → Job) (n d : Nat)
    (h : ∀ i, i < n → isTerminalStatus (fetch i).status = false) :
    pollReadmeStatus fetch n d = (.timeout, n, n * d) := by
  have := pollGo_nonterminal fetch d n 0 (by simpa using h)
  simpa [pollReadmeStatus] using this

/-- Witness for C1: the default configuration (`N = 15`, `D = 2000`) on an
always-pending record performs 15 fetches and 30000 ms of delay. -/
theorem C1_never_terminal_timeout_witness :
    pollReadmeStatus (fun _ => pendingJob) 15 2000 = (.timeout, 15, 15 * 2000) :=
  C1_never_terminal_timeout (fun _ => pendingJob) 15 2000 (fun _ _ => rfl)

/-- A completed record with some generated content. -/
def completedJob : Job :=
  { id := "abc123", status := "completed",
    readme_content := some "# widgets", repo_url := some "https://github.com/acme/widgets" }

/-- C2. The result of a `pollReadmeStatus` run is fully determined by the
fetched record stream: if the first terminal fetch is the k-th one, the run
settles there after `k + 1` fetches and `k * D` delay — resolving with the
full record when its status is `completed`, rejecting with the `failMsg`
detail when it is `failed` — and with no terminal fetch among the first `N`
the run rejects with `Timeout`. In particular a record already terminal on
the first fetch settles the run on the first attempt with zero delay. -/
theorem C2_outcome_determined_by_statuses (fetch : Nat → Job) (n d : Nat) :
    (pollReadmeStatus fetch n d =
      match firstTerminalIdx fetch n with
      | some k => (terminalResult (fetch k), k + 1, k * d)
      | none => (.timeout, n, n * d)) ∧
    (isTerminalStatus (fetch 0).status = true → 0 < n →
      pollFetches fetch n d = 1 ∧ pollDelay fetch n d = 0) := by
  constructor
  · have := pollGo_characterisation fetch d n 0
    simpa [pollReadmeStatus, firstTerminalIdx] using this
  · intro hterm hn
    cases n with
    | zero => exact absurd hn (by simp)
    | succ m =>
      have hfirst : firstTerminalFrom fetch 0 (m + 1) = some 0 := by
        simp [firstTerminalFrom, hterm]
      have hchar := pollGo_characterisation fetch d (m + 1) 0
      rw [hfirst] at hchar
      constructor
      · simp [pollFetches, pollReadmeStatus, hchar]
      · simp [pollDelay, pollReadmeStatus, hchar]

/-- Witness for C2: a record already `completed` at the first fetch settles
the run on the first attempt with no delay. -/
theorem C2_outcome_determined_by_statuses_witness :
    isTerminalStatus completedJob.status = true ∧ (0 : Nat) < 15 ∧
      pollFetches (fun _ => completedJob) 15 2000 = 1 ∧
      pollDelay (fun _ => completedJob) 15 2000 = 0 :=
  ⟨by decide, by decide,
    (C2_outcome_determined_by_statuses (fun _ => completedJob) 15 2000).2
      (by decide) (by decide)⟩

/-! ### C3: cancellation of the polling view (LoadingPage) -/

/-- Events of a polling run: the k-th `getReadme` fetch, and an awaited
`setTimeout` delay of the given number of milliseconds. -/
inductive PollEvent where
  | fetchEv (k : Nat)
  | delayEv (ms : Nat)
deriving DecidableEq, Repr

/-- Whether an event is a fetch. -/
def isFetchEv : PollEvent → Bool
  | .fetchEv _ => true
  | .delayEv _ => false

/-- The sequence of fetch and delay events performed by the
`pollReadmeStatus` loop (api.js lines 45-57): each non-terminal fetch is
followed by a delay, a terminal fetch ends the run at once. -/
def pollTraceGo (fetch : Nat → Job) (d : Nat) : Nat → Nat → List PollEvent
  | _, 0 => []
  | k, n + 1 =>
    if isTerminalStatus (fetch k).status then [.fetchEv k]
    else .fetchEv k :: .delayEv d :: pollTraceGo fetch d (k + 1) n

/-- The cleanup returned by the polling `useEffect` of the LoadingPage
component (PreviewPage.jsx, `startPolling`): the effect body calls
`startPolling()` and returns nothing, so unmounting the view registers no
cancellation action for the poll loop. -/
def loadingPollCleanup : Option Unit := none

/-- Run of the LoadingPage polling workflow in an environment where
`abandoned t` tells whether the user has left the polling view by the time
of the t-th loop event. Neither `pollReadmeStatus` (which takes no
cancellation token and tests nothing but the attempt counter and the fetched
status) nor the LoadingPage effect (whose cleanup is
`loadingPollCleanup = none`) ever consults this signal, so the translated
body is the full polling loop, independent of `abandoned`. -/
def runWithAbandon (fetch : Nat → Job) (d n : Nat) (_abandoned : Nat → Bool) :
    List PollEvent :=
  pollTraceGo fetch d 0 n

/-- Number of fetch events of a trace that start at a time at which the
view has already been abandoned (the t-th event of the trace happens at
time `t0 + t`). -/
def fetchesWhileAbandoned (abandoned : Nat → Bool) : List PollEvent → Nat → Nat
  | [], _ => 0
  | e :: rest, t =>
    (if isFetchEv e && abandoned t then 1 else 0) +
      fetchesWhileAbandoned abandoned rest (t + 1)

/-- Helper: the trace contains exactly as many fetch events as the loop
performs fetches. -/
theorem pollTraceGo_countP (fetch : Nat → Job) (d : Nat) :
    ∀ n k, (pollTraceGo fetch d k n).countP isFetchEv = (pollGo fetch d k n).2.1 := by
  intro n
  induction n with
  | zero => intro k; simp [pollTraceGo, pollGo]
  | succ m ih =>
    intro k
    by_cases hterm : isTerminalStatus (fetch k).status = true
    · have hcases : (fetch k).status = "completed" ∨ (fetch k).status = "failed" := by
        simpa [isTerminalStatus] using hterm
      have hsing : pollTraceGo fetch d k (m + 1) = [.fetchEv k] := by
        simp [pollTraceGo, hterm]
      have hone : (pollGo fetch d k (m + 1)).2.1 = 1 := by
        rcases hcases with hc | hf
        · simp [pollGo, hc]
        · have hnc : (fetch k).status ≠ "completed" := by simp [hf]
          simp [pollGo, hf, hnc]
      rw [hsing, hone]
      simp [List.countP_cons, isFetchEv]
    · have hterm' : isTerminalStatus (fetch k).status = false := Bool.eq_false_iff.mpr hterm
      have hnc : ¬ (fetch k).status = "completed" := by
        intro hc; simp [isTerminalStatus, hc] at hterm'
      have hnf : ¬ (fetch k).status = "failed" := by
        intro hf; simp [isTerminalStatus, hf] at hterm'
      simp [pollTraceGo, pollGo, hterm', hnc, hnf, List.countP_cons, ih, isFetchEv,
        Nat.add_comm]

/-- C3. The claim states that leaving the polling view cancels the poller so
that no further fetch attempt starts after the view is abandoned. On the
code there is no cancellation: with the view abandoned from time 0 on an
always-pending record, the run with the default attempt ceiling still starts
15 fetch attempts, all of them after the abandonment. -/
theorem C3_no_cancellation_counterexample :
    fetchesWhileAbandoned (fun _ => true)
        (runWithAbandon (fun _ => pendingJob) 2000 15 (fun _ => true)) 0 = 15 ∧
      (15 : Nat) ≠ 0 := by
  constructor
  · rfl
  · simp

/-- C3 (amended). Leaving the polling view does not stop the Poller: the
LoadingPage polling effect registers no cleanup (`loadingPollCleanup =
none`) and the loop consults no cancellation signal, so the event trace of a
run is the same for every abandonment history, and it always contains the
full number of fetches the uncancelled loop performs. Only the abandoned
view's own state updates are discarded (by the framework, not by this
code). -/
theorem C3_poller_ignores_abandonment (fetch : Nat → Job) (d n : Nat)
    (ab ab' : Nat → Bool) :
    runWithAbandon fetch d n ab = runWithAbandon fetch d n ab' ∧
      loadingPollCleanup = none ∧
      (runWithAbandon fetch d n ab).countP isFetchEv = pollFetches fetch n d := by
  refine ⟨rfl, rfl, ?_⟩
  simpa [runWithAbandon, pollFetches, pollReadmeStatus] using
    pollTraceGo_countP fetch d n 0

/-! ### C4: the Result Presenter (PreviewPage loadReadme) -/

/-- Component state of PreviewPage relevant to the Presenter: the editable
buffer `content`, `repoUrl`, the `isLoading` flag, the `error` message and
the `showSuccess` flag, with their `useState` initial values in
`initialPageState`. -/
structure PageState where
  content : String
  repoUrl : String
  isLoading : Bool
  error : Option String
  showSuccess : Bool
deriving DecidableEq, Repr

/-- Initial state of the PreviewPage component. -/
def initialPageState : PageState :=
  { content := "", repoUrl := "", isLoading := true, error := none, showSuccess := false }

/-- The fixed message set by the catch branch of `loadReadme`. -/
def fetchFailedMessage : String :=
  "Could not fetch from server, but you can still edit locally."

/-- The placeholder buffer used when no id is present. -/
def newReadmePlaceholder : String :=
  "# New README\n\nStart typing here to see the preview..."

/-- The active `loadReadme` effect of PreviewPage.jsx (lines 287-322), as a
function of the outcome of the `getReadme` call and, when polling is needed,
of the `pollReadmeStatus` call. A missing id or the literal id `preview`
seeds the placeholder buffer; a `completed` record seeds the buffer from its
fields; a `pending` or `processing` record triggers polling; any thrown
error is caught and replaced by the fixed `fetchFailedMessage`. A record
whose status is `failed` matches no branch and falls through with no state
change beyond the `finally` reset of `isLoading`. -/
def loadReadme (readmeId : String) (getResult : Except String Job)
    (pollResult : Except String Job) : PageState :=
  if readmeId = "" ∨ readmeId = "preview" then
    { initialPageState with
        content := newReadmePlaceholder,
        repoUrl := "New Project", isLoading := false }
  else
    match getResult with
    | .error _ =>
      { initialPageState with error := some fetchFailedMessage, isLoading := false }
    | .ok readmeData =>
      if readmeData.status = "completed" then
        { initialPageState with
            content := orEmpty readmeData.readme_content,
            repoUrl := orEmpty readmeData.repo_url,
            showSuccess := true, isLoading := false }
      else if readmeData.status = "pending" ∨ readmeData.status = "processing" then
        match pollResult with
        | .ok completedData =>
          { initialPageState with
              content := orEmpty completedData.readme_content,
              repoUrl := orEmpty completedData.repo_url,
              showSuccess := true, isLoading := false }
        | .error _ =>
          { initialPageState with error := some fetchFailedMessage, isLoading := false }
      else
        { initialPageState with isLoading := false }

/-- The error screen of PreviewPage (with its restart button back to the
landing page) renders only when an error is set and the buffer is empty
(`if (error && !content)`). -/
def showsErrorPage (st : PageState) : Bool :=
  st.error.isSome && st.content = ""

/-- A failed record carrying a failure detail. -/
def boomFailedJob : Job :=
  { id := "abc", status := "failed", readme_content := some "boom", repo_url := some "u" }

/-- C4. The claim states that a `failed` record given to the Presenter
displays the record's failure detail and offers a restart affordance. On the
code the active `loadReadme` has no branch for status `failed`: fetching the
record `boomFailedJob` directly leaves the error state unset, the detail
`boom` appears nowhere in the resulting state, and the error screen with
its restart button does not render. -/
theorem C4_failed_detail_counterexample :
    (loadReadme "abc" (.ok boomFailedJob) (.ok boomFailedJob)).error = none ∧
      showsErrorPage (loadReadme "abc" (.ok boomFailedJob) (.ok boomFailedJob)) = false ∧
      loadReadme "abc" (.ok boomFailedJob) (.ok boomFailedJob) =
        { content := "", repoUrl := "", isLoading := false, error := none,
          showSuccess := false } := by
  decide

/-- C4 (amended). For a terminal record fetched with a real id: a
`completed` record seeds the editable buffer with its `readme_content`
unmodified (round-trip identity), while a `failed` record matches no branch
of `loadReadme` — the resulting state carries no error, its buffer stays
empty, and the error screen with the restart affordance does not render, so
the failure detail is never displayed. -/
theorem C4_presenter_terminal_record (id : String) (j : Job) (p : Except String Job)
    (hid1 : ¬ id = "") (hid2 : ¬ id = "preview") :
    (j.status = "completed" → ∀ s, j.readme_content = some s →
      (loadReadme id (.ok j) p).content = s) ∧
    (j.status = "failed" →
      (loadReadme id (.ok j) p).error = none ∧
      (loadReadme id (.ok j) p).content = "" ∧
      showsErrorPage (loadReadme id (.ok j) p) = false) := by
  constructor
  · intro hc s hs
    simp [loadReadme, hid1, hid2, hc, hs, orEmpty]
  · intro hf
    have hnc : ¬ j.status = "completed" := by simp [hf]
    have hnp : ¬ (j.status = "pending" ∨ j.status = "processing") := by simp [hf]
    simp [loadReadme, hid1, hid2, hnc, hnp, showsErrorPage, initialPageState]

/-- Witness for C4: a concrete completed record round-trips its content into
the buffer, and a concrete failed record falls through with no error set. -/
theorem C4_presenter_terminal_record_witness :
    ¬ "abc" = "" ∧ ¬ "abc" = "preview" ∧
      (loadReadme "abc" (.ok completedJob) (.ok completedJob)).content = "# widgets" ∧
      (loadReadme "abc" (.ok boomFailedJob) (.ok boomFailedJob)).error = none :=
  ⟨by decide, by decide,
    (C4_presenter_terminal_record "abc" completedJob (.ok completedJob)
        (by decide) (by decide)).1 rfl "# widgets" rfl,
    ((C4_presenter_terminal_record "abc" boomFailedJob (.ok boomFailedJob)
        (by decide) (by decide)).2 rfl).1⟩

/-! ### C6, C7: the Editor/Preview Synchronizer (PreviewPage scroll sync) -/

/-- The clamped scroll fraction both handlers compute
(`Math.min(1, Math.max(0, scrollTop / scrollHeight))` with
`scrollHeight = Math.max(1, rawExtent)`), numbers modelled as rationals. -/
def clampedFraction (scrollTop rawExtent : ℚ) : ℚ :=
  min 1 (max 0 (scrollTop / max 1 rawExtent))

/-- Offset written to `preview.scrollTop` by `handleEditorScroll`
(PreviewPage.jsx lines 329-351), from the editor scroll event values
(`e.scrollTop`, `e.scrollHeight`, `editor.getLayoutInfo().height`) and the
preview metrics (`preview.scrollHeight`, `preview.clientHeight`). -/
def editorSyncWrite (scrollTop eScrollHeight eLayoutHeight pScrollHeight pClientHeight : ℚ) :
    ℚ :=
  let scrollHeight := max 1 (eScrollHeight - eLayoutHeight)
  let scrollPercentage := min 1 (max 0 (scrollTop / scrollHeight))
  let previewScrollHeight := max 1 (pScrollHeight - pClientHeight)
  scrollPercentage * previewScrollHeight

/-- Offset written to the editor by `handlePreviewScroll` (PreviewPage.jsx
lines 353-375), from the preview metrics (`preview.scrollTop`,
`preview.scrollHeight`, `preview.clientHeight`) and the editor metrics
(`editor.getScrollHeight()`, `editor.getLayoutInfo().height`). -/
def previewSyncWrite (scrollTop pScrollHeight pClientHeight eScrollHeight eLayoutHeight : ℚ) :
    ℚ :=
  let scrollHeight := max 1 (pScrollHeight - pClientHeight)
  let scrollPercentage := min 1 (max 0 (scrollTop / scrollHeight))
  let editorScrollHeight := max 1 (eScrollHeight - eLayoutHeight)
  scrollPercentage * editorScrollHeight

/-- C6. The claim states that the synchronizer never sets either pane's
offset outside `[0, totalScrollableExtent]`, even for zero scrollable
extent. On the code the written offset is the fraction times
`Math.max(1, extent)`: with an editor fraction of 1 and a preview whose
scrollable extent is `5 - 5 = 0`, the handler writes offset 1, outside
`[0, 0]`. -/
theorem C6_zero_extent_counterexample :
    editorSyncWrite 1 2 1 5 5 = 1 ∧ (5 - 5 : ℚ) = 0 ∧
      ¬ editorSyncWrite 1 2 1 5 5 ≤ 5 - 5 := by
  norm_num [editorSyncWrite]

/-- C6 (amended). For every scroll applied to either pane, the computed
fraction is clamped to `[0, 1]` even for out-of-range offsets or zero
scrollable extent, and the other pane's offset is set to the fraction times
`max 1 extent` — hence it is always nonnegative, and whenever the target
scrollable extent is at least 1 it lies within `[0, extent]` and
reproduces the same fraction exactly; for extents below 1 the written
offset can exceed the extent (up to 1). Moreover, for an in-range offset on
a source pane with extent at least 1 the fraction equals
`scrollTop / extent`. -/
theorem C6_scroll_sync_fraction (st a b c d : ℚ) :
    0 ≤ clampedFraction st (a - b) ∧
    clampedFraction st (a - b) ≤ 1 ∧
    editorSyncWrite st a b c d = clampedFraction st (a - b) * max 1 (c - d) ∧
    previewSyncWrite st a b c d = clampedFraction st (a - b) * max 1 (c - d) ∧
    0 ≤ editorSyncWrite st a b c d ∧
    (1 ≤ c - d → editorSyncWrite st a b c d ≤ c - d ∧
      editorSyncWrite st a b c d / (c - d) = clampedFraction st (a - b)) ∧
    (0 ≤ st → st ≤ a - b → 1 ≤ a - b → clampedFraction st (a - b) = st / (a - b)) := by
  have hf0 : 0 ≤ clampedFraction st (a - b) :=
    le_min zero_le_one (le_max_left 0 _)
  have hf1 : clampedFraction st (a - b) ≤ 1 := min_le_left _ _
  have heq : editorSyncWrite st a b c d = clampedFraction st (a - b) * max 1 (c - d) := rfl
  have heq' : previewSyncWrite st a b c d = clampedFraction st (a - b) * max 1 (c - d) := rfl
  refine ⟨hf0, hf1, heq, heq', ?_, ?_, ?_⟩
  · rw [heq]
    exact mul_nonneg hf0 (le_trans zero_le_one (le_max_left 1 _))
  · intro hcd
    have hmax : max 1 (c - d) = c - d := max_eq_right hcd
    have hcd0 : (0 : ℚ) ≤ c - d := le_trans zero_le_one hcd
    constructor
    · rw [heq, hmax]
      calc clampedFraction st (a - b) * (c - d) ≤ 1 * (c - d) :=
            mul_le_mul_of_nonneg_right hf1 hcd0
        _ = c - d := one_mul _
    · rw [heq, hmax]
      exact mul_div_cancel_right₀ _ (by linarith)
  · intro h0 hle h1
    have hmax : max 1 (a - b) = a - b := max_eq_right h1
    have hpos : (0 : ℚ) < a - b := by linarith
    have hdiv0 : 0 ≤ st / (a - b) := div_nonneg h0 (le_of_lt hpos)
    have hdiv1 : st / (a - b) ≤ 1 := (div_le_one hpos).mpr hle
    rw [clampedFraction, hmax, max_eq_right hdiv0, min_eq_right hdiv1]

/-- Witness for C6: a concrete in-range scroll (fraction `1/2`) on a target
pane of extent 3 writes offset `3/2`, within bounds, and reproduces the
fraction exactly. -/
theorem C6_scroll_sync_fraction_witness :
    (1 : ℚ) ≤ 7 - 4 ∧
      editorSyncWrite 1 3 1 7 4 ≤ 7 - 4 ∧
      editorSyncWrite 1 3 1 7 4 / (7 - 4) = clampedFraction 1 (3 - 1) :=
  ⟨by norm_num,
    ((C6_scroll_sync_fraction 1 3 1 7 4).2.2.2.2.2.1 (by norm_num)).1,
    ((C6_scroll_sync_fraction 1 3 1 7 4).2.2.2.2.2.1 (by norm_num)).2⟩

/-- Shared scroll-sync state of PreviewPage: the re-entrancy guard
`isScrollingRef` and the two pane offsets. -/
structure SyncState where
  isScrolling : Bool
  editorScrollTop : ℚ
  previewScrollTop : ℚ
deriving DecidableEq

/-- A programmatic write to one of the panes. -/
inductive PaneWrite where
  | toPreview (v : ℚ)
  | toEditor (v : ℚ)
deriving DecidableEq

/-- Result of one handler execution: the state at the moment the handler
returns (the guard, if acquired, is still held — its release happens in the
`setTimeout` callback scheduled by the `finally` block), the pane writes
performed, and whether the `finally` block scheduled the release. -/
structure HandlerRun where
  state : SyncState
  writes : List PaneWrite
  releaseScheduled : Bool
deriving DecidableEq

/-- Execution of `handleEditorScroll` from a state, with `refsPresent`
modelling `previewRef.current && editorRef.current` and `throwsMid`
modelling an error thrown inside the `try` block before the write (caught
by the `catch`; the `finally` runs either way). -/
def runEditorHandler (st : SyncState) (refsPresent throwsMid : Bool)
    (scrollTop eScrollHeight eLayoutHeight pScrollHeight pClientHeight : ℚ) : HandlerRun :=
  if st.isScrolling || !refsPresent then
    { state := st, writes := [], releaseScheduled := false }
  else
    let st1 : SyncState := { st with isScrolling := true }
    if throwsMid then
      { state := st1, writes := [], releaseScheduled := true }
    else
      let v := editorSyncWrite scrollTop eScrollHeight eLayoutHeight pScrollHeight pClientHeight
      { state := { st1 with previewScrollTop := v },
        writes := [.toPreview v], releaseScheduled := true }

/-- Execution of `handlePreviewScroll`, symmetric to `runEditorHandler`. -/
def runPreviewHandler (st : SyncState) (refsPresent throwsMid : Bool)
    (scrollTop pScrollHeight pClientHeight eScrollHeight eLayoutHeight : ℚ) : HandlerRun :=
  if st.isScrolling || !refsPresent then
    { state := st, writes := [], releaseScheduled := false }
  else
    let st1 : SyncState := { st with isScrolling := true }
    if throwsMid then
      { state := st1, writes := [], releaseScheduled := true }
    else
      let v := previewSyncWrite scrollTop pScrollHeight pClientHeight eScrollHeight eLayoutHeight
      { state := { st1 with editorScrollTop := v },
        writes := [.toEditor v], releaseScheduled := true }

/-- State once the scheduled `setTimeout(() => isScrollingRef.current =
false, 50)` of the `finally` block has fired. -/
def afterQuiescence (r : HandlerRun) : SyncState :=
  if r.releaseScheduled then { r.state with isScrolling := false } else r.state

/-- C7. On every handler execution: while the guard is held a scroll event
on either pane performs no write to the other pane and leaves the state
untouched; and whenever the guard is acquired — normal path or error path —
the `finally` block schedules the release, so the guard is down again after
the quiescence delay. In particular the programmatic scroll triggered by the
preview handler finds the guard still held and never writes back. -/
theorem C7_reentrancy_guard (st : SyncState) (rp tm tm' : Bool) (q1 q2 q3 q4 q5 : ℚ) :
    (st.isScrolling = true →
      runEditorHandler st rp tm q1 q2 q3 q4 q5 =
        { state := st, writes := [], releaseScheduled := false } ∧
      runPreviewHandler st rp tm q1 q2 q3 q4 q5 =
        { state := st, writes := [], releaseScheduled := false }) ∧
    (st.isScrolling = false → rp = true →
      (runEditorHandler st rp tm q1 q2 q3 q4 q5).releaseScheduled = true ∧
      (afterQuiescence (runEditorHandler st rp tm q1 q2 q3 q4 q5)).isScrolling = false ∧
      (runPreviewHandler st rp tm q1 q2 q3 q4 q5).releaseScheduled = true ∧
      (afterQuiescence (runPreviewHandler st rp tm q1 q2 q3 q4 q5)).isScrolling = false ∧
      (runEditorHandler (runPreviewHandler st rp tm q1 q2 q3 q4 q5).state
          rp tm' q1 q2 q3 q4 q5).writes = []) := by
  constructor
  · intro hheld
    constructor
    · simp [runEditorHandler, hheld]
    · simp [runPreviewHandler, hheld]
  · intro hfree hrp
    subst hrp
    cases tm with
    | false =>
      refine ⟨?_, ?_, ?_, ?_, ?_⟩ <;>
        simp [runEditorHandler, runPreviewHandler, afterQuiescence, hfree]
    | true =>
      refine ⟨?_, ?_, ?_, ?_, ?_⟩ <;>
        simp [runEditorHandler, runPreviewHandler, afterQuiescence, hfree]

/-- A guard-free synchronizer state. -/
def freeSyncState : SyncState :=
  { isScrolling := false, editorScrollTop := 0, previewScrollTop := 0 }

/-- A guard-held synchronizer state. -/
def heldSyncState : SyncState :=
  { isScrolling := true, editorScrollTop := 0, previewScrollTop := 0 }

/-- Witness for C7: from a guard-free state, the error path of the editor
handler still ends with the guard released after quiescence; and from a
guard-held state the preview handler performs no write at all. -/
theorem C7_reentrancy_guard_witness :
    (afterQuiescence (runEditorHandler freeSyncState true true 1 2 1 5 5)).isScrolling
        = false ∧
      runPreviewHandler heldSyncState true false 1 2 1 5 5 =
        { state := heldSyncState, writes := [], releaseScheduled := false } :=
  ⟨((C7_reentrancy_guard freeSyncState true true true 1 2 1 5 5).2 rfl rfl).2.1,
    ((C7_reentrancy_guard heldSyncState true false false 1 2 1 5 5).1 rfl).2⟩

/-! ### C5: regeneration never mutates the original job -/

/-- Modelled from the spec: the backend of this repository is not under
src/, so the stored GenerationJob record is modelled from the data model of
the spec (section 3): `status`, immutable `sourceReference`, and
`resultContent` present when completed. -/
structure StoredJob where
  status : String
  sourceReference : String
  resultContent : Option String
deriving DecidableEq, Repr

/-- Modelled from the spec: the backend job store — a finite map from
identifiers (modelled as naturals assigned in creation order) to records,
with `nextId` the next fresh identifier. -/
structure BackendState where
  nextId : Nat
  store : List (Nat × StoredJob)
deriving DecidableEq, Repr

/-- Lookup of a stored record by identifier. -/
def lookupJob (b : BackendState) (i : Nat) : Option StoredJob :=
  (b.store.find? (fun p => p.1 == i)).map (fun p => p.2)

/-- Modelled from the spec: the `create job` operation assigns a fresh
identifier, immutable thereafter, and stores a `pending` record holding the
source reference. -/
def createJob (b : BackendState) (url : String) : Nat × BackendState :=
  (b.nextId,
    { nextId := b.nextId + 1,
      store := (b.nextId,
        { status := "pending", sourceReference := url, resultContent := none }) :: b.store })

/-- Replace the record stored under an identifier. -/
def replaceEntry : List (Nat × StoredJob) → Nat → StoredJob → List (Nat × StoredJob)
  | [], _, _ => []
  | (k, j) :: rest, i, next =>
    if k = i then (i, next) :: rest else (k, j) :: replaceEntry rest i next

/-- Modelled from the spec: an internal generation step of the backend
mutates a single job record and never transitions out of a terminal state
(section 3: monotonic progression, no transition out of a terminal state). -/
def advanceJob (b : BackendState) (i : Nat) (next : StoredJob) : BackendState :=
  match lookupJob b i with
  | some j =>
    if isTerminalStatus j.status then b
    else { b with store := replaceEntry b.store i next }
  | none => b

/-- A backend-visible operation of the workflow: the creation call of the
Issuer, a read (`getReadme`) of the Poller, or an internal generation step.
`handleRegenerate` (PreviewPage.jsx lines 417-448) causes exactly one
`create` (its `generateReadme` call) followed by reads of the new
identifier (the `getReadme` fetches of `pollReadmeStatus`); it issues no
write to any existing identifier. -/
inductive BackendOp where
  | create (url : String)
  | get (i : Nat)
  | internal (i : Nat) (next : StoredJob)
deriving DecidableEq, Repr

/-- Effect of one operation on the store. -/
def applyOp (b : BackendState) : BackendOp → BackendState
  | .create url => (createJob b url).2
  | .get _ => b
  | .internal i next => advanceJob b i next

/-- Backend footprint of one `handleRegenerate` run: one creation call with
the current repository url, then the poll fetches of the new identifier. -/
def regenerateOps (url : String) (newId polls : Nat) : List BackendOp :=
  .create url :: List.replicate polls (.get newId)

/-- A client/backend system state: the backend store plus the PreviewPage
component state. -/
structure SystemState where
  backend : BackendState
  page : PageState
deriving DecidableEq, Repr

/-- The editor `onChange` of PreviewPage (`setContent(value)` through
EditorPanel): a purely client-side state update. -/
def editBuffer (s : SystemState) (value : String) : SystemState :=
  { s with page := { s.page with content := value } }

/-- Helper: replacing the entry of another identifier does not change what
`find?` sees for this one. -/
theorem find?_replaceEntry_ne (i m : Nat) (next : StoredJob) (h : ¬ m = i) :
    ∀ l : List (Nat × StoredJob),
      (replaceEntry l i next).find? (fun p => p.1 == m) =
        l.find? (fun p => p.1 == m) := by
  intro l
  induction l with
  | nil => rfl
  | cons hd rest ih =>
    obtain ⟨k, j⟩ := hd
    by_cases hk : k = i
    · subst hk
      have hkm : (k == m) = false := by
        simp [beq_iff_eq]; intro hmk; exact h hmk.symm
      simp [replaceEntry, List.find?, hkm]
    · by_cases hkm : (k == m) = true
      · simp [replaceEntry, hk, List.find?, hkm]
      · have hkm' : (k == m) = false := Bool.eq_false_iff.mpr hkm
        simp [replaceEntry, hk, List.find?, hkm', ih]

/-- Helper: an internal generation step preserves every identifier whose
record is terminal. -/
theorem advanceJob_preserves_terminal (b : BackendState) (i : Nat) (next : StoredJob)
    (m : Nat) (j : StoredJob) (hj : lookupJob b m = some j)
    (hterm : isTerminalStatus j.status = true) :
    lookupJob (advanceJob b i next) m = some j := by
  unfold advanceJob
  cases hlook : lookupJob b i with
  | none => simpa [hlook] using hj
  | some ji =>
    by_cases hT : isTerminalStatus ji.status = true
    · simpa [hlook, hT] using hj
    · have hmi : ¬ m = i := by
        intro hmi
        subst hmi
        rw [hj] at hlook
        cases hlook
        exact hT hterm
      have hTf : isTerminalStatus ji.status = false := Bool.eq_false_iff.mpr hT
      simpa [hlook, hTf, lookupJob, find?_replaceEntry_ne i m next hmi] using hj

/-- Helper: an internal generation step never changes `nextId`. -/
theorem advanceJob_nextId (b : BackendState) (i : Nat) (next : StoredJob) :
    (advanceJob b i next).nextId = b.nextId := by
  unfold advanceJob
  cases lookupJob b i with
  | none => rfl
  | some ji =>
    by_cases hT : isTerminalStatus ji.status = true
    · simp [hT]
    · simp [Bool.eq_false_iff.mpr hT]

/-- Helper: creation does not touch previously assigned identifiers. -/
theorem createJob_frame (b : BackendState) (url : String) (m : Nat)
    (h : ¬ m = b.nextId) :
    lookupJob (createJob b url).2 m = lookupJob b m := by
  have hne : (b.nextId == m) = false := by
    simp [beq_iff_eq]; intro hx; exact h hx.symm
  simp [createJob, lookupJob, List.find?, hne]

/-- Helper: every workflow operation preserves a terminal record assigned
before `nextId`, together with that bound. -/
theorem applyOp_preserves (m : Nat) (j : StoredJob)
    (hterm : isTerminalStatus j.status = true) (b : BackendState) (op : BackendOp)
    (hm : m < b.nextId) (hj : lookupJob b m = some j) :
    m < (applyOp b op).nextId ∧ lookupJob (applyOp b op) m = some j := by
  cases op with
  | create url =>
    refine ⟨?_, ?_⟩
    · simp [applyOp, createJob]
      omega
    · rw [applyOp, createJob_frame b url m (by omega)]
      exact hj
  | get i => exact ⟨hm, hj⟩
  | internal i next =>
    refine ⟨?_, advanceJob_preserves_terminal b i next m j hj hterm⟩
    rw [applyOp, advanceJob_nextId]
    exact hm

/-- Helper: no sequence of workflow operations changes a terminal record. -/
theorem foldl_applyOp_preserves (m : Nat) (j : StoredJob)
    (hterm : isTerminalStatus j.status = true) :
    ∀ (ops : List BackendOp) (b : BackendState), m < b.nextId →
      lookupJob b m = some j → lookupJob (ops.foldl applyOp b) m = some j := by
  intro ops
  induction ops with
  | nil => intro b _ hj; exact hj
  | cons op rest ih =>
    intro b hm hj
    obtain ⟨hm', hj'⟩ := applyOp_preserves m j hterm b op hm hj
    simpa [List.foldl] using ih (applyOp b op) hm' hj'

/-- C5. Regeneration creates a brand-new job and never mutates the original
record: the identifier returned by the creation call differs from every
previously assigned identifier; after the backend footprint of
`handleRegenerate` (one create plus poll reads), and indeed after any
sequence of workflow operations and internal generation steps, fetching the
original identifier still returns the original record with its
`resultContent`; and a local edit of the text buffer leaves the backend
untouched. -/
theorem C5_regenerate_preserves_original (b : BackendState) (m : Nat) (j : StoredJob)
    (url : String) (hm : m < b.nextId) (hj : lookupJob b m = some j)
    (hterm : isTerminalStatus j.status = true) :
    (createJob b url).1 ≠ m ∧
    (∀ newId polls,
      lookupJob ((regenerateOps url newId polls).foldl applyOp b) m = some j) ∧
    (∀ ops : List BackendOp, lookupJob (ops.foldl applyOp b) m = some j) ∧
    (∀ s : SystemState, ∀ value, (editBuffer s value).backend = s.backend) := by
  refine ⟨?_, ?_, ?_, ?_⟩
  · simp [createJob]
    omega
  · intro newId polls
    exact foldl_applyOp_preserves m j hterm (regenerateOps url newId polls) b hm hj
  · intro ops
    exact foldl_applyOp_preserves m j hterm ops b hm hj
  · intro s value
    rfl

/-- A completed stored record. -/
def widgetsStoredJob : StoredJob :=
  { status := "completed", sourceReference := "https://github.com/acme/widgets",
    resultContent := some "# widgets" }

/-- A backend holding one completed job under identifier 0. -/
def widgetsBackend : BackendState :=
  { nextId := 1, store := [(0, widgetsStoredJob)] }

/-- Witness for C5: on a concrete store with a completed job under
identifier 0, a regenerate run (create plus three poll reads) leaves the
original record retrievable unchanged, and the new identifier differs. -/
theorem C5_regenerate_preserves_original_witness :
    (0 : Nat) < widgetsBackend.nextId ∧
      lookupJob widgetsBackend 0 = some widgetsStoredJob ∧
      (createJob widgetsBackend "https://github.com/acme/widgets").1 ≠ 0 ∧
      lookupJob ((regenerateOps "https://github.com/acme/widgets" 1 3).foldl
        applyOp widgetsBackend) 0 = some widgetsStoredJob :=
  ⟨by decide, by decide,
    (C5_regenerate_preserves_original widgetsBackend 0 widgetsStoredJob
      "https://github.com/acme/widgets" (by decide) (by decide) (by decide)).1,
    (C5_regenerate_preserves_original widgetsBackend 0 widgetsStoredJob
      "https://github.com/acme/widgets" (by decide) (by decide) (by decide)).2.1 1 3⟩

/-! ### C8: the Generation Request Issuer (PublicRepoTab handleGenerate) -/

/-- A character of the regex class `\w`: ASCII letters, digits, underscore. -/
def isWordChar (c : Char) : Bool :=
  c.isAlpha || c.isDigit || c = '_'

/-- A character of the regex class `[\w\.-]`. -/
def isClassChar (c : Char) : Bool :=
  isWordChar c || c = '.' || c = '-'

/-- Case-insensitive match of a lowercase literal as a prefix, returning
the remainder on success. -/
def matchLitCI : List Char → List Char → Option (List Char)
  | [], cs => some cs
  | _ :: _, [] => none
  | l :: ls, c :: cs => if c.toLower = l then matchLitCI ls cs else none

/-- Match at the current position of the pattern
`github\.com[/:]([\w\.-]+)\/([\w\.-]+)` (case-insensitive): the literal,
one separator, a maximal nonempty run of class characters, a slash, and at
least one more class character. The first group cannot contain a slash, so
the greedy run needs no backtracking. -/
def ghMatchAt (cs : List Char) : Bool :=
  match matchLitCI ("github.com".toList) cs with
  | none => false
  | some rest =>
    match rest with
    | [] => false
    | sep :: rest2 =>
      (sep = '/' || sep = ':') &&
        !(rest2.takeWhile isClassChar).isEmpty &&
          (match rest2.dropWhile isClassChar with
           | '/' :: c :: _ => isClassChar c
           | _ => false)

/-- Search for the pattern at every position (`RegExp.test` without
anchors). -/
def ghSearch : List Char → Bool
  | [] => false
  | c :: rest => ghMatchAt (c :: rest) || ghSearch rest

/-- Strip leading and trailing whitespace (`String.prototype.trim`). -/
def trimChars (cs : List Char) : List Char :=
  ((cs.dropWhile Char.isWhitespace).reverse.dropWhile Char.isWhitespace).reverse

/-- Drop one occurrence of a trailing suffix (`replace(/X$/, '')`). -/
def dropSuffixChars (cs suf : List Char) : List Char :=
  if suf.isSuffixOf cs then cs.take (cs.length - suf.length) else cs

/-- The `validateGitHubUrl` function of PublicRepoTab.jsx (lines 13-23):
reject a blank string, remove one trailing slash and one trailing `.git`,
then test the pattern `/github\.com[/:]([\w\.-]+)\/([\w\.-]+)/i`. -/
def validateGitHubUrl (url : String) : Bool :=
  let t := trimChars url.toList
  if t.isEmpty then false
  else ghSearch (dropSuffixChars (dropSuffixChars t ['/']) ['.', 'g', 'i', 't'])

/-- Response of a successful creation call (`POST /api/readme/generate`). -/
structure CreateResponse where
  id : String
  session_token : Option String
deriving DecidableEq, Repr

/-- Outcome of the creation call as seen by the axios catch logic:
a response, an HTTP error response with a status and optional detail, or a
transport-level failure with no response. -/
inductive ApiOutcome where
  | ok (r : CreateResponse)
  | httpError (status : Nat) (detail : Option String)
  | networkError
deriving DecidableEq, Repr

/-- User-visible and backend-visible effects of `handleGenerate`. -/
inductive IssuerEffect where
  | toastErrorEv (msg : String)
  | apiCreate (url : String)
  | apiGet (id : String)
  | setLocalStorage (key value : String)
  | navigate (path : String) (stateGithubUrl : Option String) (stateReadmeId : Option String)
  | setSubmitting (b : Bool)
deriving DecidableEq, Repr

/-- The correction prompt shown for a malformed reference. -/
def invalidUrlMsg : String := "Please enter a valid GitHub repository URL"

/-- The message shown for a 404 rejection. -/
def notFoundMsg : String :=
  "Repository not found or is private. For private repos, use the \x27Private Repo\x27 tab."

/-- JavaScript `error.response.data?.detail || "An error occurred"`. -/
def errorDetailMsg : Option String → String
  | some s => if s = "" then "An error occurred" else s
  | none => "An error occurred"

/-- The `handleGenerate` handler of PublicRepoTab.jsx (lines 25-72) as the
list of effects it performs, given the outcome of its creation call: a
malformed reference short-circuits into a correction toast; otherwise the
creation call is issued, a 403 routes to the OAuth connection page with the
original reference in the navigation state, a 400 re-shows the correction
prompt, a 404 shows the not-found message, any other response shows its
detail, and a transport failure shows the connection message. -/
def handleGenerate (repoUrl : String) (api : ApiOutcome) : List IssuerEffect :=
  if !validateGitHubUrl repoUrl then [.toastErrorEv invalidUrlMsg]
  else
    .setSubmitting true :: .apiCreate repoUrl ::
      (match api with
       | .ok r =>
         (match r.session_token with
          | some tok => if tok = "" then [] else [.setLocalStorage "session_token" tok]
          | none => []) ++ [.navigate "/loading" none (some r.id)]
       | .httpError status detail =>
         .setSubmitting false ::
           (if status = 403 then [.navigate "/connect-github" (some repoUrl) none]
            else if status = 400 then [.toastErrorEv invalidUrlMsg]
            else if status = 404 then [.toastErrorEv notFoundMsg]
            else [.toastErrorEv (errorDetailMsg detail)])
       | .networkError =>
         [.setSubmitting false, .toastErrorEv "Failed to connect to server. Please try again."])

/-- Whether an effect is the creation call. -/
def isCreateEffect : IssuerEffect → Bool
  | .apiCreate _ => true
  | _ => false

/-- Whether an effect is a status fetch (polling). -/
def isGetEffect : IssuerEffect → Bool
  | .apiGet _ => true
  | _ => false

/-- C8. The Issuer distinguishes rejection categories: a malformed reference
causes only the correction prompt and no creation call; for a well-formed
reference exactly one creation call is issued and no status fetch (the
Issuer never polls), a 403 rejection routes to the alternate connection
flow with the original reference preserved in the navigation state, and a
404 rejection shows the not-found-or-private message. -/
theorem C8_issuer_rejections (url : String) (api : ApiOutcome) :
    (validateGitHubUrl url = false →
      handleGenerate url api = [.toastErrorEv invalidUrlMsg] ∧
      (handleGenerate url api).countP isCreateEffect = 0) ∧
    (validateGitHubUrl url = true →
      (handleGenerate url api).countP isCreateEffect = 1 ∧
      (handleGenerate url api).countP isGetEffect = 0 ∧
      (∀ d, api = .httpError 403 d →
        IssuerEffect.navigate "/connect-github" (some url) none ∈ handleGenerate url api) ∧
      (∀ d, api = .httpError 404 d →
        IssuerEffect.toastErrorEv notFoundMsg ∈ handleGenerate url api)) := by
  constructor
  · intro hv
    simp [handleGenerate, hv, isCreateEffect]
  · intro hv
    refine ⟨?_, ?_, ?_, ?_⟩
    · cases api with
      | ok r =>
        cases hr : r.session_token with
        | none => simp [handleGenerate, hv, isCreateEffect, hr]
        | some tok =>
          by_cases ht : tok = ""
          · simp [handleGenerate, hv, isCreateEffect, hr, ht]
          · simp [handleGenerate, hv, isCreateEffect, hr, ht]
      | httpError status detail =>
        by_cases h3 : status = 403
        · simp [handleGenerate, hv, isCreateEffect, h3]
        · by_cases h0 : status = 400
          · simp [handleGenerate, hv, isCreateEffect, h3, h0]
          · by_cases h4 : status = 404
            · simp [handleGenerate, hv, isCreateEffect, h3, h0, h4]
            · simp [handleGenerate, hv, isCreateEffect, h3, h0, h4]
      | networkError => simp [handleGenerate, hv, isCreateEffect]
    · cases api with
      | ok r =>
        cases hr : r.session_token with
        | none => simp [handleGenerate, hv, isGetEffect, hr]
        | some tok =>
          by_cases ht : tok = ""
          · simp [handleGenerate, hv, isGetEffect, hr, ht]
          · simp [handleGenerate, hv, isGetEffect, hr, ht]
      | httpError status detail =>
        by_cases h3 : status = 403
        · simp [handleGenerate, hv, isGetEffect, h3]
        · by_cases h0 : status = 400
          · simp [handleGenerate, hv, isGetEffect, h3, h0]
          · by_cases h4 : status = 404
            · simp [handleGenerate, hv, isGetEffect, h3, h0, h4]
            · simp [handleGenerate, hv, isGetEffect, h3, h0, h4]
      | networkError => simp [handleGenerate, hv, isGetEffect]
    · intro d hapi
      subst hapi
      simp [handleGenerate, hv]
    · intro d hapi
      subst hapi
      simp [handleGenerate, hv]

/-- Witness for C8: the scenario reference from the spec is a well-formed
url, and an access-denied creation rejection routes to the alternate
connection flow carrying that url. -/
theorem C8_issuer_rejections_witness :
    validateGitHubUrl "https://github.com/acme/widgets" = true ∧
      IssuerEffect.navigate "/connect-github" (some "https://github.com/acme/widgets") none ∈
        handleGenerate "https://github.com/acme/widgets" (.httpError 403 none) :=
  ⟨by decide,
    ((C8_issuer_rejections "https://github.com/acme/widgets"
      (.httpError 403 none)).2 (by decide)).2.2.1 none rfl⟩

/-! ### C9: the mark-downloaded acknowledgement is best-effort -/

/-- Console and user-interface effects of the tracking update. -/
inductive TrackingEffect where
  | consoleError (msg : String)
  | toastShown (msg : String)
deriving DecidableEq, Repr

/-- The `updateReadmeDownloaded` function of api.js (lines 60-69): the
`PATCH` call either yields response data or throws; the catch logs to the
console and returns `null`, so the function returns normally in both cases
and shows the user nothing. The first component is the settled result of
the returned promise: `Except.ok` means a normal return. -/
def updateReadmeDownloaded (outcome : Except String Job) :
    Except String (Option Job) × List TrackingEffect :=
  match outcome with
  | .ok d => (.ok (some d), [])
  | .error e =>
    (.ok none, [.consoleError ("Failed to update download tracking: " ++ e)])

/-- Whether a tracking effect is user-visible. -/
def isToastShown : TrackingEffect → Bool
  | .toastShown _ => true
  | .consoleError _ => false

/-- C9. A failure of the mark-downloaded call is swallowed entirely: the
operation returns normally with `null` and logs only to the console, a
success returns the response data, and in neither case is anything surfaced
to the user. -/
theorem C9_mark_downloaded_swallowed :
    (∀ e, updateReadmeDownloaded (.error e) =
      (.ok none, [.consoleError ("Failed to update download tracking: " ++ e)])) ∧
    (∀ d, updateReadmeDownloaded (.ok d) = (.ok (some d), [])) ∧
    (∀ outcome, (updateReadmeDownloaded outcome).2.countP isToastShown = 0) := by
  refine ⟨fun e => rfl, fun d => rfl, fun outcome => ?_⟩
  cases outcome <;> simp [updateReadmeDownloaded, isToastShown]

/-! ### C10: the download action -/

/-- Effects of the PreviewPage download action. -/
inductive DownloadEffect where
  | blobDownload (bytes : String) (filename : String)
  | toastSuccessEv (msg : String)
  | apiPatch (id : String)
  | apiDownloadCall (id : String)
deriving DecidableEq, Repr

/-- The backend `download result` operation (`downloadReadme` of api.js
lines 37-42), as the effect its invocation would add to a trace. -/
def downloadReadme (readmeId : String) : DownloadEffect :=
  .apiDownloadCall readmeId

/-- Split a character list at every occurrence of a separator
(`String.prototype.split`): the result is never empty and keeps empty
segments. -/
def splitOnChar (sep : Char) : List Char → List (List Char)
  | [] => [[]]
  | c :: rest =>
    match splitOnChar sep rest with
    | [] => [[]]
    | g :: gs => if c = sep then [] :: g :: gs else (c :: g) :: gs

/-- Filename derivation of `handleDownload`: the last `/`-separated part of
the repository url, when present and not blank, prefixes `-README.md`. -/
def downloadFilename (repoUrl : String) : String :=
  if repoUrl.toList.isEmpty then "README.md"
  else
    let repoName := (splitOnChar '/' repoUrl.toList).getLastD []
    if repoName.isEmpty then "README.md"
    else if (trimChars repoName).isEmpty then "README.md"
    else String.mk (repoName ++ "-README.md".toList)

/-- The `handleDownload` handler of PreviewPage.jsx (lines 450-503): build a
Blob from the current editor buffer, trigger the client-side download under
the derived filename, show the success toast, and only when a real
identifier is present (non-empty and not the local `preview` marker) issue
the best-effort mark-downloaded call. -/
def handleDownload (readmeId repoUrl content : String) : List DownloadEffect :=
  .blobDownload content (downloadFilename repoUrl) ::
    .toastSuccessEv "README download started!" ::
      (if readmeId = "" ∨ readmeId = "preview" then [] else [.apiPatch readmeId])

/-- Whether an effect is the client-side blob download. -/
def isBlobDownload : DownloadEffect → Bool
  | .blobDownload _ _ => true
  | _ => false

/-- C10. The download action writes exactly the current local editor buffer
as the downloaded bytes, constructed client-side: the single blob written
carries `content` verbatim; the backend download operation is never
invoked; and the mark-downloaded acknowledgement is issued exactly when a
real identifier is present (skipped for an empty id and for the local
`preview` marker). -/
theorem C10_download_uses_local_buffer (readmeId repoUrl content : String) :
    (handleDownload readmeId repoUrl content).filter isBlobDownload =
      [.blobDownload content (downloadFilename repoUrl)] ∧
    (∀ rid, downloadReadme rid ∉ handleDownload readmeId repoUrl content) ∧
    (DownloadEffect.apiPatch readmeId ∈ handleDownload readmeId repoUrl content ↔
      ¬ readmeId = "" ∧ ¬ readmeId = "preview") := by
  refine ⟨?_, ?_, ?_⟩
  · by_cases h : readmeId = "" ∨ readmeId = "preview"
    · simp [handleDownload, h, isBlobDownload]
    · simp [handleDownload, h, isBlobDownload]
  · intro rid
    by_cases h : readmeId = "" ∨ readmeId = "preview"
    · simp [handleDownload, h, downloadReadme]
    · simp [handleDownload, h, downloadReadme]
  · by_cases h : readmeId = "" ∨ readmeId = "preview"
    · simp [handleDownload, h]
      tauto
    · simp [handleDownload, h]
      tauto

end DocRelief
